import Mathlib

/-!
Shallow embedding of the mood-driven scene orchestration engine of the
agroforst_jukebox repository (TypeScript, Three.js).  The definitions are
translated from `src/configs/mood-definitions.ts`,
`src/managers/LightManager.ts` (the refactored class in that file, the one
consistent with the catalog and with the animation-aware type declarations),
`src/managers/EffectManager.ts` and `src/managers/MoodManager.ts`.

Modelling conventions:
* JavaScript numbers are modelled as real numbers.
* `Math.random()` is modelled as an explicit oracle: a stream of real values
  together with a position; every call reads the stream and advances the
  position.
* A Three.js color stores r/g/b components; `Color.set` with a style string
  parses strings of the form #RRGGBB and keeps the previous components for
  any other string (the behaviour relevant to the strings occurring in this
  repository, including the malformed key-light color of the Harmonisch
  mood).
* A JavaScript object used as a string-keyed store (the light storage of
  LightManager) is modelled as an association list in insertion order:
  assignment to a fresh key appends, assignment to an existing key
  overwrites in place.
-/

namespace Agroforst

set_option maxRecDepth 16000

noncomputable section

/-- Three-component vector (Three.js Vector3; also used for r/g/b colors). -/
structure Vec3 where
  x : ℝ
  y : ℝ
  z : ℝ

/-- Oracle for Math.random: an ambient stream of draws and the current
position in it. -/
structure RNG where
  stream : ℕ → ℝ
  idx : ℕ

/-- One call of Math.random: read the stream and advance the position. -/
def RNG.next (g : RNG) : ℝ × RNG :=
  (g.stream g.idx, ⟨g.stream, g.idx + 1⟩)

/-- JavaScript `v || d` for an optional numeric field: the default is used
when the field is absent or equal to 0 (0 is falsy in JavaScript). -/
def jsOrDefault (v : Option ℝ) (d : ℝ) : ℝ :=
  match v with
  | none => d
  | some x => if x = 0 then d else x

/-- THREE.MathUtils.lerp. -/
def lerp (x y t : ℝ) : ℝ := x + (y - x) * t

/-- Numeric value of a hexadecimal digit character. -/
def hexDigitVal (c : Char) : ℕ :=
  if c.toNat ≥ 48 ∧ c.toNat ≤ 57 then c.toNat - 48
  else if c.toNat ≥ 97 ∧ c.toNat ≤ 102 then c.toNat - 97 + 10
  else if c.toNat ≥ 65 ∧ c.toNat ≤ 70 then c.toNat - 65 + 10
  else 0

/-- Whether a character is a hexadecimal digit. -/
def isHexDigit (c : Char) : Bool :=
  (c.toNat ≥ 48 && c.toNat ≤ 57) || (c.toNat ≥ 97 && c.toNat ≤ 102) ||
    (c.toNat ≥ 65 && c.toNat ≤ 70)

/-- Value of a list of hexadecimal digit characters. -/
def hexVal (cs : List Char) : ℕ :=
  cs.foldl (fun a c => 16 * a + hexDigitVal c) 0

/-- THREE.Color.setHex: unpack a 24-bit hex integer into r/g/b in [0, 1]. -/
def Color.ofHexNum (n : ℕ) : Vec3 :=
  ⟨(((n / 65536) % 256 : ℕ) : ℝ) / 255, (((n / 256) % 256 : ℕ) : ℝ) / 255,
    ((n % 256 : ℕ) : ℝ) / 255⟩

/-- Whether a style string has the form #RRGGBB. -/
def isHex6Style (s : String) : Bool :=
  match s.data with
  | '#' :: rest => rest.length = 6 && rest.all isHexDigit
  | _ => false

/-- THREE.Color.set with a style string: a #RRGGBB string is parsed, any
other string leaves the color unchanged (the only style format used by this
repository is #RRGGBB; malformed strings keep the previous color). -/
def Color.setStyle (prev : Vec3) (s : String) : Vec3 :=
  if isHex6Style s then Color.ofHexNum (hexVal (s.data.drop 1)) else prev

/-- Color of `new THREE.Color(style)` (default components are 1/1/1). -/
def Color.ofStyle (s : String) : Vec3 := Color.setStyle ⟨1, 1, 1⟩ s

/-- JavaScript truncating conversion used by the % operator. -/
def truncR (x : ℝ) : ℝ := if 0 ≤ x then ((⌊x⌋ : ℤ) : ℝ) else ((⌈x⌉ : ℤ) : ℝ)

/-- JavaScript remainder operator (truncated division). -/
def jsFmod (a b : ℝ) : ℝ := a - b * truncR (a / b)

/-- THREE.MathUtils.euclideanModulo. -/
def euclideanModulo (n m : ℝ) : ℝ := jsFmod (jsFmod n m + m) m

/-- THREE.MathUtils.clamp. -/
def clampR (x lo hi : ℝ) : ℝ := max lo (min hi x)

/-- The hue2rgb helper of THREE.Color.setHSL. -/
def hue2rgb (p q t : ℝ) : ℝ :=
  let t1 := if t < 0 then t + 1 else t
  let t2 := if t1 > 1 then t1 - 1 else t1
  if t2 < 1 / 6 then p + (q - p) * 6 * t2
  else if t2 < 1 / 2 then q
  else if t2 < 2 / 3 then p + (q - p) * 6 * (2 / 3 - t2)
  else p

/-- THREE.Color.setHSL. -/
def Color.setHSL (h s l : ℝ) : Vec3 :=
  let h1 := euclideanModulo h 1
  let s1 := clampR s 0 1
  let l1 := clampR l 0 1
  if s1 = 0 then ⟨l1, l1, l1⟩
  else
    let p := if l1 ≤ 0.5 then l1 * (1 + s1) else l1 + s1 - l1 * s1
    let q := 2 * l1 - p
    ⟨hue2rgb q p (h1 + 1 / 3), hue2rgb q p h1, hue2rgb q p (h1 - 1 / 3)⟩

/-- Rounded 0..255 channel value used by THREE.Color.getHex. -/
def round255 (x : ℝ) : ℕ := (⌊clampR (x * 255) 0 255 + 0.5⌋).toNat

/-- THREE.Color.getHex. -/
def Color.getHex (c : Vec3) : ℕ :=
  round255 c.x * 65536 + round255 c.y * 256 + round255 c.z

/-- Hex value of an HSL color, as in `new THREE.Color().setHSL(h, s, l).getHex()`. -/
def hslHex (h s l : ℝ) : ℕ := Color.getHex (Color.setHSL h s l)

/-- Field that is either a scalar or a [min, max] pair (intensity, size,
opacity in the TypeScript config types). -/
inductive NumOrRange where
  | scalar (x : ℝ)
  | range (lo hi : ℝ)

/-- Base value of a scalar-or-range field: `Array.isArray(v) ? v[0] : v`. -/
def NumOrRange.base : NumOrRange → ℝ
  | .scalar x => x
  | .range lo _ => lo

/-- Dynamic-light color field: a hex number or an array of hex numbers. -/
inductive LightColor where
  | num (n : ℕ)
  | arr (ns : List ℕ)

/-- First color of a dynamic-light color field:
`Array.isArray(c) ? c[0] : c`. -/
def LightColor.first : LightColor → ℕ
  | .num n => n
  | .arr ns => ns.headD 0

/-- Dynamic-light position: a vector or a [vecA, vecB] pair. -/
inductive LightPosition where
  | vec (v : Vec3)
  | pair (a b : Vec3)

/-- Base position: `Array.isArray(p[0]) ? p[0] : p`. -/
def LightPosition.base : LightPosition → Vec3
  | .vec v => v
  | .pair a _ => a

/-- Particle color field: a hex string (with the sentinel string rainbow) or
an array of hex strings. -/
inductive ParticleColor where
  | str (s : String)
  | arr (cs : List String)

/-- Light animation modes of `types.ts`. -/
inductive LightAnimationMode where
  | static
  | strobe
  | disco
  | explosion
  | pulse
  | flash
deriving DecidableEq

/-- Strobe animation parameter bag. -/
structure StrobeParams where
  triggerChance : ℝ
  maxIntensity : ℝ
  fadeSpeed : ℝ
  colors : Option (List ℕ) := none

/-- Disco animation parameter bag. -/
structure DiscoParams where
  rotationSpeed : ℝ × ℝ
  radius : ℝ
  targetMovement : Bool
  heightOffset : Option ℝ := none

/-- Explosion animation parameter bag. -/
structure ExplosionParams where
  triggerChance : ℝ
  randomPosition : Bool
  positionRange : Vec3
  intensityMultiplier : ℝ
  fadeSpeed : ℝ

/-- Pulse animation parameter bag. -/
structure PulseParams where
  frequency : ℝ
  intensityRange : ℝ × ℝ
  phaseOffset : Option ℝ := none

/-- Flash animation parameter bag. -/
structure FlashParams where
  duration : ℝ
  intensityMultiplier : ℝ
  cooldown : ℝ

/-- The (all-optional) parameter record of a light animation. -/
structure LightAnimationParams where
  strobe : Option StrobeParams := none
  disco : Option DiscoParams := none
  explosion : Option ExplosionParams := none
  pulse : Option PulseParams := none
  flash : Option FlashParams := none

/-- Light animation configuration. -/
structure LightAnimationConfig where
  mode : LightAnimationMode
  params : LightAnimationParams
  enabled : Option Bool := none

/-- Dynamic light type. -/
inductive LightType where
  | spot
  | point
deriving DecidableEq

/-- DynamicLightConfig of `types.ts`. -/
structure DynamicLightConfig where
  name : String
  type : LightType
  color : LightColor
  intensity : NumOrRange
  angle : Option ℝ := none
  penumbra : Option ℝ := none
  decay : Option ℝ := none
  distance : Option ℝ := none
  position : LightPosition
  animation : Option LightAnimationConfig := none

/-- Particle texture types. -/
inductive TextureType where
  | sparkle
  | smoke
deriving DecidableEq

/-- Particle blending modes. -/
inductive BlendingMode where
  | additive
  | normal
deriving DecidableEq

/-- Particle travel direction. -/
inductive Direction where
  | up
  | down
deriving DecidableEq

/-- Material part of a particle system spec.  (The spawn areas and
velocities used by the repository are always 3-component vectors, so they
are modelled as Vec3.) -/
structure ParticleMaterialConfig where
  size : NumOrRange
  textureType : TextureType
  blending : BlendingMode
  depthWrite : Bool
  opacity : NumOrRange
  color : ParticleColor

/-- Behavior part of a particle system spec. -/
structure ParticleBehavior where
  spawnArea : Vec3
  velocity : Vec3
  direction : Direction

/-- ParticleConfig of `types.ts`. -/
structure ParticleConfig where
  name : Option String := none
  count : ℕ
  material : ParticleMaterialConfig
  behavior : ParticleBehavior

/-- The particles field of a mood: one spec or an ordered list of specs. -/
inductive ParticlesField where
  | single (p : ParticleConfig)
  | many (ps : List ParticleConfig)

/-- Fog configuration. -/
structure FogConfig where
  color : String
  density : ℝ

/-- Ambient light configuration. -/
structure AmbientConfig where
  color : String
  intensity : ℝ

/-- Key light configuration. -/
structure KeyLightConfig where
  color : String
  intensity : ℝ
  position : Vec3

/-- Sun marker configuration. -/
structure SunConfig where
  visible : Bool
  color : String

/-- Vegetation styling configuration. -/
structure VegetationConfig where
  treeColor : String
  cropColor : String
  pulsingColor : Option Bool := none
  emissiveGlow : Option Bool := none
  emissiveColor : Option String := none

/-- Bloom post-processing configuration. -/
structure BloomConfig where
  threshold : ℝ
  strength : ℝ
  radius : ℝ

/-- UI accent configuration. -/
structure UIConfig where
  borderColor : String
  shadowColor : String
  shadowBlur : String

/-- MoodConfig of `types.ts`. -/
structure MoodConfig where
  name : String
  skyColor : String
  fog : FogConfig
  ambient : AmbientConfig
  keyLight : KeyLightConfig
  sun : SunConfig
  groundColor : String
  vegetation : VegetationConfig
  bloom : BloomConfig
  particles : Option ParticlesField := none
  dynamicLights : Option (List DynamicLightConfig) := none
  ui : UIConfig

/-- The dynamic-light spec list of a mood (empty when the field is absent,
as in `if (!dynamicLights) return`). -/
def dynSpecs (c : MoodConfig) : List DynamicLightConfig :=
  c.dynamicLights.getD []

/-- The particle spec list of a mood, as normalised by EffectManager:
`Array.isArray(config.particles) ? config.particles : [config.particles]`
under the guard `if (config.particles)`. -/
def particleSpecs (c : MoodConfig) : List ParticleConfig :=
  match c.particles with
  | none => []
  | some (.single p) => [p]
  | some (.many ps) => ps

/-! ### The mood catalog (`src/configs/mood-definitions.ts`) -/

/-- The Harmonisch mood. -/
def harmonisch : MoodConfig where
  name := "Harmonisch"
  skyColor := "#87CEEB"
  fog := ⟨"#87CEEB", 0.001⟩
  ambient := ⟨"#ffffff", 0.1⟩
  keyLight := ⟨"##FFFF00", 3, ⟨-100, 150, 50⟩⟩
  sun := ⟨true, "#FFFF4F"⟩
  groundColor := "#7CFC00"
  vegetation := { treeColor := "#228B22", cropColor := "#ADFF2F" }
  bloom := ⟨0.85, 0.8, 0.5⟩
  particles := some (.single
    { count := 200
      material :=
        { size := .scalar 2, textureType := .sparkle, blending := .additive
          depthWrite := false, opacity := .scalar 0.8, color := .str "#FFFFDD" }
      behavior := ⟨⟨800, 200, 800⟩, ⟨0, 0.1, 0⟩, .up⟩ })
  ui := ⟨"#FFFFAA", "#FFFF00", "30"⟩

/-- The Kooperativ mood. -/
def kooperativ : MoodConfig where
  name := "Kooperativ"
  skyColor := "#220033"
  fog := ⟨"#220033", 0.002⟩
  ambient := ⟨"#ffffff", 0.6⟩
  keyLight := ⟨"#FFD700", 3, ⟨-150, 80, 0⟩⟩
  sun := ⟨true, "#FFD700"⟩
  groundColor := "#4F7039"
  vegetation := { treeColor := "#ff00ff", cropColor := "#00ffff", pulsingColor := some true }
  bloom := ⟨0.1, 1.0, 0.8⟩
  particles := some (.single
    { count := 5000
      material :=
        { size := .scalar 1.5, textureType := .sparkle, blending := .additive
          depthWrite := false, opacity := .scalar 1.0, color := .str "rainbow" }
      behavior := ⟨⟨800, 200, 800⟩, ⟨0, 0.05, 0⟩, .up⟩ })
  dynamicLights := some ((List.range 8).map (fun (i : ℕ) =>
    { name := "disco_spot_" ++ toString i
      type := .spot
      color := .num (hslHex ((i : ℝ) / 8) 1 0.5)
      intensity := .scalar 300
      angle := some (Real.pi / 8)
      penumbra := some 0.5
      decay := some 2
      position := .vec ⟨0, 80, 0⟩
      animation := some
        { mode := .disco
          enabled := some true
          params :=
            { disco := some
                { rotationSpeed := (2.0 + (i : ℝ) * 0.3, 3.0 + (i : ℝ) * 0.2)
                  radius := 120 + (i : ℝ) * 15
                  heightOffset := some ((i : ℝ) * 5)
                  targetMovement := true } } } }))
  ui := ⟨"rainbow", "rainbow", "40"⟩

/-- The Neutral mood. -/
def neutral : MoodConfig where
  name := "Neutral"
  skyColor := "#B0C4DE"
  fog := ⟨"#B0C4DE", 0.002⟩
  ambient := ⟨"#aaaaaa", 0.7⟩
  keyLight := ⟨"#ffffff", 2.5, ⟨50, 100, 50⟩⟩
  sun := ⟨false, "#FFFFFF"⟩
  groundColor := "#8FBC8F"
  vegetation := { treeColor := "#556B2F", cropColor := "#6B8E23" }
  bloom := ⟨0.9, 0.5, 0.5⟩
  ui := ⟨"#CCCCCC", "#FFFFFF", "20"⟩

/-- The Distanziert mood. -/
def distanziert : MoodConfig where
  name := "Distanziert"
  skyColor := "#483D8B"
  fog := ⟨"#483D8B", 0.003⟩
  ambient := ⟨"#483D8B", 0.7⟩
  keyLight := ⟨"#ffccaa", 2.2, ⟨-840, 20, 10⟩⟩
  sun := ⟨true, "#ffccaa"⟩
  groundColor := "#0E1C00"
  vegetation := { treeColor := "#2F4F4F", cropColor := "#556B2F" }
  bloom := ⟨0.5, 1.2, 0.8⟩
  particles := some (.single
    { count := 4000
      material :=
        { size := .scalar 0.8, textureType := .sparkle, blending := .normal
          depthWrite := true, opacity := .scalar 0.5, color := .str "#AAAAFF" }
      behavior := ⟨⟨800, 200, 800⟩, ⟨0, -2, 0⟩, .down⟩ })
  ui := ⟨"#ffccaa", "#FF4500", "35"⟩

/-- The Spannung mood. -/
def spannung : MoodConfig where
  name := "Spannung"
  skyColor := "#200000"
  fog := ⟨"#570066", 0.004⟩
  ambient := ⟨"#400000", 0.005⟩
  keyLight := ⟨"#B00000", 1.5, ⟨0, 100, 0⟩⟩
  sun := ⟨true, "#ff0000"⟩
  groundColor := "#008556"
  vegetation :=
    { treeColor := "#1a0000", cropColor := "#100000"
      emissiveGlow := some true, emissiveColor := some "#FF0000" }
  bloom := ⟨0.1, 2.0, 1.2⟩
  dynamicLights := some
    [{ name := "dynamic_strobe"
       type := .point
       color := .arr [0xffffff, 0x00ffff00]
       intensity := .range 20 60
       angle := some (Real.pi / 3)
       penumbra := some 0.1
       decay := some 0.6
       position := .vec ⟨10, 80, 0⟩ }]
  particles := some (.single
    { count := 2500
      material :=
        { size := .scalar 4, textureType := .sparkle, blending := .additive
          depthWrite := false, opacity := .scalar 0.5, color := .str "#FF4500" }
      behavior := ⟨⟨800, 200, 800⟩, ⟨0, 0.2, 0⟩, .up⟩ })
  ui := ⟨"#FF4500", "#FF0000", "40"⟩

/-- The Konflikt mood. -/
def konflikt : MoodConfig where
  name := "Konflikt"
  skyColor := "#050505"
  fog := ⟨"#110000", 0.005⟩
  ambient := ⟨"#220000", 1.5⟩
  keyLight := ⟨"#009900", 1, ⟨-200, 30, 0⟩⟩
  sun := ⟨true, "#ffffff"⟩
  groundColor := "#333333"
  vegetation := { treeColor := "#444444", cropColor := "#555555" }
  bloom := ⟨0, 3.0, 0.8⟩
  dynamicLights := some
    [{ name := "conflict_strobe"
       type := .spot
       color := .num 0xffffff
       intensity := .scalar 100
       angle := some (Real.pi / 3)
       penumbra := some 0.0
       decay := some 0.4
       position := .vec ⟨0, 150, 0⟩
       animation := some
         { mode := .strobe
           enabled := some true
           params :=
             { strobe := some
                 { triggerChance := 0.15, maxIntensity := 3000, fadeSpeed := 0.4
                   colors := some [0xffffff, 0x440000] } } } }]
  ui := ⟨"#FFFFFF", "#FF0000", "50"⟩

/-- The Krieg mood. -/
def krieg : MoodConfig where
  name := "Krieg"
  skyColor := "#1A0000"
  fog := ⟨"#FF4500", 0.001⟩
  ambient := ⟨"#FF0000", 0.3⟩
  keyLight := ⟨"#FF6600", 2.5, ⟨200, 50, -100⟩⟩
  sun := ⟨false, "#ff0000"⟩
  groundColor := "#330000"
  vegetation :=
    { treeColor := "#4A0000", cropColor := "#661100"
      emissiveGlow := some true, emissiveColor := some "#FF6600" }
  bloom := ⟨0, 3.5, 1.8⟩
  dynamicLights := some
    [{ name := "lightning_strobe"
       type := .spot
       color := .num 0xffffff
       intensity := .scalar 200
       angle := some (Real.pi / 3)
       penumbra := some 0.1
       decay := some 0.8
       position := .vec ⟨0, 150, 0⟩
       animation := some
         { mode := .strobe
           enabled := some true
           params :=
             { strobe := some
                 { triggerChance := 0.05, maxIntensity := 4000, fadeSpeed := 0.2
                   colors := some [0xffffff, 0x87ceeb, 0xffffff] } } } },
     { name := "fire_explosion"
       type := .point
       color := .num 0xff4500
       intensity := .scalar 150
       distance := some 400
       decay := some 1.5
       position := .vec ⟨100, 40, -80⟩
       animation := some
         { mode := .explosion
           enabled := some true
           params :=
             { explosion := some
                 { triggerChance := 0.08, intensityMultiplier := 3.5, fadeSpeed := 0.15
                   randomPosition := true, positionRange := ⟨200, 60, 200⟩ } } } },
     { name := "war_pulse"
       type := .point
       color := .num 0xff0000
       intensity := .scalar 80
       distance := some 300
       decay := some 2.0
       position := .vec ⟨-120, 60, 100⟩
       animation := some
         { mode := .pulse
           enabled := some true
           params :=
             { pulse := some
                 { frequency := 1.2, intensityRange := (0.2, 4.0)
                   phaseOffset := some 0 } } } }]
  particles := some (.many
    [{ name := some "smoke"
       count := 500
       material :=
         { size := .scalar 60, textureType := .smoke, blending := .normal
           depthWrite := false, opacity := .scalar 0.3, color := .str "#220000" }
       behavior := ⟨⟨600, 200, 1000⟩, ⟨0.1, 0.15, 0.1⟩, .up⟩ },
     { name := some "fire"
       count := 1500
       material :=
         { size := .scalar 1.5, textureType := .sparkle, blending := .additive
           depthWrite := false, opacity := .scalar 1.0, color := .arr ["#FF0000"] }
       behavior := ⟨⟨900, 150, 900⟩, ⟨0, 0.6, 0⟩, .up⟩ },
     { name := some "embers"
       count := 500
       material :=
         { size := .scalar 2.2, textureType := .sparkle, blending := .additive
           depthWrite := false, opacity := .scalar 0.8, color := .str "#FF4500" }
       behavior := ⟨⟨1200, 400, 1200⟩, ⟨0.2, 0.3, 0.2⟩, .up⟩ }])
  ui := ⟨"#FF0000", "#FF6600", "80"⟩

/-- The Groove mood. -/
def groove : MoodConfig where
  name := "Groove"
  skyColor := "#2d1b69"
  fog := ⟨"#2d1b69", 0.0025⟩
  ambient := ⟨"#ffd700", 0.7⟩
  keyLight := ⟨"#ffd700", 4.0, ⟨0, 120, 100⟩⟩
  sun := ⟨true, "#ffd700"⟩
  groundColor := "#4a0080"
  vegetation := { treeColor := "#8a2be2", cropColor := "#ffd700", pulsingColor := some true }
  bloom := ⟨0.4, 2.2, 0.9⟩
  particles := some (.single
    { count := 3000
      material :=
        { size := .scalar 2.5, textureType := .sparkle, blending := .additive
          depthWrite := false, opacity := .scalar 0.8, color := .str "#ffd700" }
      behavior := ⟨⟨600, 150, 600⟩, ⟨0, 0.08, 0⟩, .up⟩ })
  dynamicLights := some
    [{ name := "groove_spot_1"
       type := .spot
       color := .num 0xffd700
       intensity := .scalar 150
       angle := some (Real.pi / 6)
       penumbra := some 0.3
       decay := some 1.8
       position := .vec ⟨-100, 80, 50⟩ },
     { name := "groove_spot_2"
       type := .spot
       color := .num 0x8a2be2
       intensity := .scalar 150
       angle := some (Real.pi / 6)
       penumbra := some 0.3
       decay := some 1.8
       position := .vec ⟨100, 80, -50⟩ }]
  ui := ⟨"#ffd700", "#8a2be2", "35"⟩

/-- The Transzendent mood. -/
def transzendent : MoodConfig where
  name := "Transzendent"
  skyColor := "#000011"
  fog := ⟨"#110022", 0.004⟩
  ambient := ⟨"#6a4c93", 1.2⟩
  keyLight := ⟨"#ffd700", 2.8, ⟨0, 180, 0⟩⟩
  sun := ⟨true, "#ffd700"⟩
  groundColor := "#2a1b5d"
  vegetation :=
    { treeColor := "#8a2be2", cropColor := "#00ffff"
      emissiveGlow := some true, emissiveColor := some "#ff69b4"
      pulsingColor := some true }
  bloom := ⟨0.5, 1.0, 1.5⟩
  particles := some (.many
    [{ name := some "souls"
       count := 800
       material :=
         { size := .range 6 22, textureType := .sparkle, blending := .additive
           depthWrite := false, opacity := .range 0.2 0.5
           color := .arr ["#ff69b4", "#ffc0cb", "#da70d6"] }
       behavior := ⟨⟨600, 400, 600⟩, ⟨0.1, 0.04, 0.01⟩, .up⟩ },
     { name := some "stars"
       count := 3000
       material :=
         { size := .range 1 5, textureType := .sparkle, blending := .additive
           depthWrite := false, opacity := .range 0.3 0.8
           color := .arr ["#e6e6fa", "#b19cd9", "#dda0dd", "#ffd700"] }
       behavior := ⟨⟨800, 300, 800⟩, ⟨0.01, 0.05, 0⟩, .up⟩ }])
  dynamicLights := some
    [{ name := "ethereal_point_1"
       type := .point
       color := .num 0xff69b4
       intensity := .scalar 42
       distance := some 480
       decay := some 3.0
       position := .vec ⟨-80, 60, 40⟩
       animation := some
         { mode := .pulse
           enabled := some true
           params :=
             { pulse := some
                 { frequency := 0.8, intensityRange := (0.5, 1.5), phaseOffset := some 0 } } } },
     { name := "ethereal_point_2"
       type := .point
       color := .num 0x00ffff
       intensity := .scalar 27
       distance := some 260
       decay := some 3.2
       position := .vec ⟨60, 90, -60⟩
       animation := some
         { mode := .pulse
           enabled := some true
           params :=
             { pulse := some
                 { frequency := 1.2, intensityRange := (0.6, 1.4)
                   phaseOffset := some (Real.pi / 3) } } } },
     { name := "ethereal_point_3"
       type := .point
       color := .num 0xffd700
       intensity := .scalar 45
       distance := some 300
       decay := some 2.8
       position := .vec ⟨0, 120, 80⟩
       animation := some
         { mode := .pulse
           enabled := some true
           params :=
             { pulse := some
                 { frequency := 0.6, intensityRange := (0.6, 1.4)
                   phaseOffset := some (Real.pi / 2) } } } },
     { name := "ethereal_point_4"
       type := .point
       color := .num 0x8a2be2
       intensity := .scalar 25
       distance := some 240
       decay := some 3.5
       position := .vec ⟨-60, 80, -40⟩
       animation := some
         { mode := .pulse
           enabled := some true
           params :=
             { pulse := some
                 { frequency := 1.5, intensityRange := (0.5, 1.5)
                   phaseOffset := some Real.pi } } } }]
  ui := ⟨"#ffd700", "#ff69b4", "40"⟩

/-- The mood catalog `moodStyles`, as an association list in declaration
order (a JavaScript Record keyed by mood name). -/
def moodStyles : List (String × MoodConfig) :=
  [("Harmonisch", harmonisch),
   ("Kooperativ", kooperativ),
   ("Neutral", neutral),
   ("Distanziert", distanziert),
   ("Spannung", spannung),
   ("Konflikt", konflikt),
   ("Krieg", krieg),
   ("Groove", groove),
   ("Transzendent", transzendent)]

/-- Catalog lookup `moodStyles[moodName]`. -/
def lookupMood (name : String) : Option MoodConfig :=
  moodStyles.lookup name

/-! ### LightManager (the refactored class of `src/managers/LightManager.ts`) -/

/-- Kind of a live Three.js light object. -/
inductive LightKind where
  | ambient
  | directional
  | spot
  | point
deriving DecidableEq

/-- Live light object state (THREE.Light).  The angle and penumbra fields
are meaningful for spot lights only and are left 0 for other kinds; the
target is meaningful for directional and spot lights. -/
structure LiveLight where
  kind : LightKind
  color : Vec3
  intensity : ℝ
  position : Vec3
  target : Vec3
  distance : ℝ
  angle : ℝ
  penumbra : ℝ
  decay : ℝ
  castShadow : Bool

/-- The visual sun mesh. -/
structure SunMesh where
  visible : Bool
  color : Vec3
  position : Vec3

/-- Mutable state of LightManager: the string-keyed light storage and the
sun mesh. -/
structure LightState where
  lights : List (String × LiveLight)
  sunMesh : Option SunMesh

/-- JavaScript object assignment on the light storage: overwrite in place
when the key exists, append otherwise. -/
def storeSet : List (String × LiveLight) → String → LiveLight → List (String × LiveLight)
  | [], k, v => [(k, v)]
  | (k1, v1) :: rest, k, v =>
      if k1 = k then (k, v) :: rest else (k1, v1) :: storeSet rest k v

/-- In-place mutation of the light object stored at a key. -/
def storeModify (m : List (String × LiveLight)) (k : String)
    (f : LiveLight → LiveLight) : List (String × LiveLight) :=
  m.map (fun p => if p.1 = k then (p.1, f p.2) else p)

/-- Object read `this.lights[name]`. -/
def storeGet (m : List (String × LiveLight)) (k : String) : Option LiveLight :=
  m.lookup k

/-- Ambient light created by the constructor:
`new THREE.AmbientLight(0xffffff, 0.1)`. -/
def ambientLight0 : LiveLight :=
  { kind := .ambient, color := Color.ofHexNum 0xffffff, intensity := 0.1
    position := ⟨0, 0, 0⟩, target := ⟨0, 0, 0⟩, distance := 0, angle := 0
    penumbra := 0, decay := 0, castShadow := false }

/-- Key light created by the constructor:
`new THREE.DirectionalLight(0xffffff, 1)` with shadows enabled (a
DirectionalLight places itself at (0, 1, 0)). -/
def keyLight0 : LiveLight :=
  { kind := .directional, color := Color.ofHexNum 0xffffff, intensity := 1
    position := ⟨0, 1, 0⟩, target := ⟨0, 0, 0⟩, distance := 0, angle := 0
    penumbra := 0, decay := 0, castShadow := true }

/-- LightManager state right after the constructor ran. -/
def LightManager.init : LightState :=
  { lights := [("ambient", ambientLight0), ("keyLight", keyLight0)]
    sunMesh := some ⟨true, Color.ofHexNum 0xffff00, ⟨0, 0, 0⟩⟩ }

/-- Creation of one live light from its spec (the body of the refactored
createDynamicLights, both branches).  The base intensity and base position
are the first elements of [min, max] / [vecA, vecB] fields; no random draw
is involved. -/
def createLight (c : DynamicLightConfig) : LiveLight :=
  match c.type with
  | .spot =>
      { kind := .spot
        color := Color.ofHexNum c.color.first
        intensity := c.intensity.base
        distance := 1000
        angle := jsOrDefault c.angle (Real.pi / 3)
        penumbra := jsOrDefault c.penumbra 0.1
        decay := jsOrDefault c.decay 1
        position := c.position.base
        target := ⟨0, 0, 0⟩
        castShadow := true }
  | .point =>
      { kind := .point
        color := Color.ofHexNum c.color.first
        intensity := c.intensity.base
        distance := jsOrDefault c.distance 1000
        angle := 0
        penumbra := 0
        decay := jsOrDefault c.decay 1
        position := c.position.base
        target := ⟨0, 0, 0⟩
        castShadow := false }

/-- createDynamicLights: one storage assignment per spec, in order. -/
def createDynamicLights (m : List (String × LiveLight))
    (specs : List DynamicLightConfig) : List (String × LiveLight) :=
  specs.foldl (fun acc s => storeSet acc s.name (createLight s)) m

/-- The two persistent storage keys, kept by clearDynamicLights. -/
def reservedKey (k : String) : Bool := k == "ambient" || k == "keyLight"

/-- clearDynamicLights (refactored): every storage key other than ambient
and keyLight is removed from the scene, disposed and deleted. -/
def clearDynamicLights (m : List (String × LiveLight)) : List (String × LiveLight) :=
  m.filter (fun p => reservedKey p.1)

/-- Number of live dynamic lights: storage entries other than the two
persistent lights. -/
def LightState.dynamicLightCount (st : LightState) : ℕ :=
  (st.lights.filter (fun p => !reservedKey p.1)).length

/-- Mutation applied to the stored ambient light by applyMood. -/
def ambientApply (config : MoodConfig) (l : LiveLight) : LiveLight :=
  { l with color := Color.setStyle l.color config.ambient.color
           intensity := config.ambient.intensity }

/-- Mutation applied to the stored key light by applyMood (the target is
re-aimed at the origin). -/
def keyLightApply (config : MoodConfig) (l : LiveLight) : LiveLight :=
  { l with color := Color.setStyle l.color config.keyLight.color
           intensity := config.keyLight.intensity
           position := config.keyLight.position
           target := ⟨0, 0, 0⟩ }

/-- Mutation applied to the sun mesh by applyMood; the sun copies the
just-set key light position. -/
def sunApply (config : MoodConfig) (m : SunMesh) : SunMesh :=
  { m with visible := config.sun.visible
           color := Color.setStyle m.color config.sun.color
           position := config.keyLight.position }

/-- LightManager.applyMood (refactored): configure the persistent ambient
and key lights and the sun mesh, then clear and re-create the dynamic
lights. -/
def LightManager.applyMood (st : LightState) (config : MoodConfig) : LightState :=
  let lights1 := storeModify st.lights "ambient" (ambientApply config)
  let lights2 := storeModify lights1 "keyLight" (keyLightApply config)
  let sun := st.sunMesh.map (sunApply config)
  { lights := createDynamicLights (clearDynamicLights lights2) (dynSpecs config)
    sunMesh := sun }

/-- updateStrobeLight. -/
def updateStrobeLight (light : LiveLight) (config : DynamicLightConfig)
    (params : Option StrobeParams) (g : RNG) : LiveLight × RNG :=
  match params with
  | none => (light, g)
  | some p =>
      let baseIntensity := config.intensity.base
      let (r, g1) := g.next
      if r > 1 - p.triggerChance then
        let light1 := { light with intensity := p.maxIntensity }
        match p.colors with
        | some colors =>
            if colors.length > 0 then
              let (r2, g2) := g1.next
              ({ light1 with
                  color := Color.ofHexNum
                    (colors.getD (⌊r2 * (colors.length : ℝ)⌋).toNat 0) }, g2)
            else (light1, g1)
        | none => (light1, g1)
      else
        ({ light with intensity := lerp light.intensity baseIntensity p.fadeSpeed }, g1)

/-- updateDiscoLight (the instanceof SpotLight guard becomes a kind
check). -/
def updateDiscoLight (light : LiveLight) (config : DynamicLightConfig)
    (params : Option DiscoParams) (elapsedTime : ℝ) : LiveLight :=
  match params with
  | none => light
  | some p =>
      if light.kind ≠ .spot then light
      else
        let rotationSpeed := p.rotationSpeed.1
        let angle := elapsedTime * rotationSpeed
        let radius := p.radius
        let heightOffset := jsOrDefault p.heightOffset 0
        let basePosition := config.position.base
        let light1 := { light with position :=
          (⟨Real.cos angle * radius + basePosition.x,
            basePosition.y + heightOffset,
            Real.sin angle * radius + basePosition.z⟩ : Vec3) }
        if p.targetMovement then
          { light1 with target :=
            (⟨Real.cos (angle + Real.pi / 2) * (radius * 0.3), 0,
              Real.sin (angle + Real.pi / 2) * (radius * 0.3)⟩ : Vec3) }
        else light1

/-- updateExplosionLight. -/
def updateExplosionLight (light : LiveLight) (config : DynamicLightConfig)
    (params : Option ExplosionParams) (g : RNG) : LiveLight × RNG :=
  match params with
  | none => (light, g)
  | some p =>
      let baseIntensity := config.intensity.base
      let (r, g1) := g.next
      if r > 1 - p.triggerChance then
        let light1 := { light with intensity := baseIntensity * p.intensityMultiplier }
        if p.randomPosition then
          let (rx, g2) := g1.next
          let (ry, g3) := g2.next
          let (rz, g4) := g3.next
          let basePosition := config.position.base
          ({ light1 with position :=
              (⟨basePosition.x + (rx - 0.5) * p.positionRange.x,
                basePosition.y + ry * p.positionRange.y,
                basePosition.z + (rz - 0.5) * p.positionRange.z⟩ : Vec3) }, g4)
        else (light1, g1)
      else
        ({ light with intensity := lerp light.intensity baseIntensity p.fadeSpeed }, g1)

/-- updatePulseLight: fully deterministic breathing animation. -/
def updatePulseLight (light : LiveLight) (config : DynamicLightConfig)
    (params : Option PulseParams) (elapsedTime : ℝ) : LiveLight :=
  match params with
  | none => light
  | some p =>
      let baseIntensity := config.intensity.base
      let phase := (elapsedTime * p.frequency + jsOrDefault p.phaseOffset 0) * Real.pi * 2
      let pulseFactor := (Real.sin phase + 1) / 2
      let multiplier :=
        p.intensityRange.1 + pulseFactor * (p.intensityRange.2 - p.intensityRange.1)
      { light with intensity := baseIntensity * multiplier }

/-- updateFlashLight. -/
def updateFlashLight (light : LiveLight) (config : DynamicLightConfig)
    (params : Option FlashParams) (g : RNG) : LiveLight × RNG :=
  match params with
  | none => (light, g)
  | some p =>
      let baseIntensity := config.intensity.base
      let (r, g1) := g.next
      if r > 1 - 1 / (p.cooldown / 16) then
        ({ light with intensity := baseIntensity * p.intensityMultiplier }, g1)
      else
        ({ light with intensity := lerp light.intensity baseIntensity 0.1 }, g1)

/-- updateAnimatedLight: dispatch on the declared animation mode.  The
non-null assertions on the parameter bags are erased at runtime; each
handler starts by checking its bag and returns without any effect when the
bag is absent, and the static mode hits no switch case, so no dispatch path
can throw. -/
def updateAnimatedLight (light : LiveLight) (config : DynamicLightConfig)
    (elapsedTime : ℝ) (g : RNG) : LiveLight × RNG :=
  match config.animation with
  | none => (light, g)
  | some anim =>
      match anim.mode with
      | .strobe => updateStrobeLight light config anim.params.strobe g
      | .disco => (updateDiscoLight light config anim.params.disco elapsedTime, g)
      | .explosion => updateExplosionLight light config anim.params.explosion g
      | .pulse => (updatePulseLight light config anim.params.pulse elapsedTime, g)
      | .flash => updateFlashLight light config anim.params.flash g
      | .static => (light, g)

/-- Truthiness of `lightConfig.animation?.enabled`. -/
def animEnabled (c : DynamicLightConfig) : Bool :=
  match c.animation with
  | none => false
  | some a => a.enabled.getD false

/-- Body of the forEach in LightManager.update, processing one spec: look
up the live light by name and run its animation when the light exists and
an animation is declared and enabled; otherwise return without side
effects. -/
def LightManager.updateStep (elapsedTime : ℝ) (acc : LightState × RNG)
    (spec : DynamicLightConfig) : LightState × RNG :=
  match storeGet acc.1.lights spec.name with
  | none => acc
  | some light =>
      if animEnabled spec then
        let (light1, g1) := updateAnimatedLight light spec elapsedTime acc.2
        ({ acc.1 with lights := storeSet acc.1.lights spec.name light1 }, g1)
      else acc

/-- LightManager.update (refactored): process each dynamic-light spec of
the current mood in order. -/
def LightManager.update (st : LightState) (g : RNG) (elapsedTime : ℝ)
    (moodConfig : MoodConfig) : LightState × RNG :=
  match moodConfig.dynamicLights with
  | none => (st, g)
  | some specs => specs.foldl (LightManager.updateStep elapsedTime) (st, g)

/-- Several consecutive frames of LightManager.update, one frame per entry
of the given list of elapsed times. -/
def LightManager.updateFrames (st : LightState) (g : RNG) (times : List ℝ)
    (moodConfig : MoodConfig) : LightState × RNG :=
  times.foldl (fun acc t => LightManager.update acc.1 acc.2 t moodConfig) (st, g)

/-! ### EffectManager (`src/managers/EffectManager.ts`) -/

/-- getRandomSize: resolve the size field, drawing one random number for a
[min, max] range. -/
def getRandomSize (size : NumOrRange) (g : RNG) : ℝ × RNG :=
  match size with
  | .scalar x => (x, g)
  | .range lo hi =>
      let (r, g1) := g.next
      (lo + r * (hi - lo), g1)

/-- getRandomOpacity: resolve the opacity field, drawing one random number
for a [min, max] range. -/
def getRandomOpacity (opacity : NumOrRange) (g : RNG) : ℝ × RNG :=
  match opacity with
  | .scalar x => (x, g)
  | .range lo hi =>
      let (r, g1) := g.next
      (lo + r * (hi - lo), g1)

/-- getRandomColor: a scalar color is returned as is, an array color draws
one random index. -/
def getRandomColor (color : ParticleColor) (g : RNG) : String × RNG :=
  match color with
  | .str s => (s, g)
  | .arr cs =>
      let (r, g1) := g.next
      (cs.getD (⌊r * (cs.length : ℝ)⌋).toNat "", g1)

/-- One live particle system: the buffer attributes of the points object,
the material parameters, and the behavior reference kept beside it. -/
structure LiveParticleSystem where
  name : String
  positions : List Vec3
  velocities : List Vec3
  colors : List ℝ
  size : ℝ
  textureType : TextureType
  blending : BlendingMode
  depthWrite : Bool
  opacity : ℝ
  vertexColors : Bool
  materialColor : Vec3
  behavior : ParticleBehavior

/-- The r/g/b components pushed into the color buffer for one particle. -/
def colorComponents (c : Vec3) : List ℝ := [c.x, c.y, c.z]

/-- vertexColors flag of the points material:
rainbow sentinel or array color. -/
def usesVertexColors (c : ParticleColor) : Bool :=
  match c with
  | .str s => s = "rainbow"
  | .arr _ => true

/-- Uniform color of the points material: white when per-particle colors
are used, otherwise the configured scalar color. -/
def materialBaseColor (c : ParticleColor) : Vec3 :=
  match c with
  | .str s => if s = "rainbow" then Color.ofHexNum 0xffffff else Color.ofStyle s
  | .arr _ => Color.ofHexNum 0xffffff

/-- The per-particle creation loop of EffectManager.applyMood: for each of
count particles push one random position inside the spawn volume, one
random velocity scaled by the configured velocity vector, and, for the
rainbow sentinel or an array color, one per-particle random color. -/
def buildParticles (material : ParticleMaterialConfig) (behavior : ParticleBehavior) :
    ℕ → RNG → List Vec3 × List Vec3 × List ℝ × RNG
  | 0, g => ([], [], [], g)
  | n + 1, g =>
      let (r1, g1) := g.next
      let (r2, g2) := g1.next
      let (r3, g3) := g2.next
      let pos : Vec3 :=
        ⟨(r1 - 0.5) * behavior.spawnArea.x, r2 * behavior.spawnArea.y,
          (r3 - 0.5) * behavior.spawnArea.z⟩
      let (r4, g4) := g3.next
      let (r5, g5) := g4.next
      let (r6, g6) := g5.next
      let vel : Vec3 :=
        ⟨(r4 - 0.5) * behavior.velocity.x, r5 * behavior.velocity.y,
          (r6 - 0.5) * behavior.velocity.z⟩
      let (col, g7) :=
        match material.color with
        | .str s =>
            if s = "rainbow" then
              let (h, gc) := g6.next
              (colorComponents (Color.setHSL h 1.0 0.7), gc)
            else (([] : List ℝ), g6)
        | .arr cs =>
            let (c, gc) := getRandomColor (.arr cs) g6
            (colorComponents (Color.ofStyle c), gc)
      let (ps, vs, cols, gN) := buildParticles material behavior n g7
      (pos :: ps, vel :: vs, col ++ cols, gN)

/-- Creation of one live particle system from its spec (the body of the
forEach in EffectManager.applyMood): the procedural texture draws no random
numbers; then the particle loop runs, then the material is built with its
possibly random size and opacity. -/
def buildSystem (pConfig : ParticleConfig) (g : RNG) : LiveParticleSystem × RNG :=
  let (ps, vs, cols, g1) := buildParticles pConfig.material pConfig.behavior pConfig.count g
  let (size, g2) := getRandomSize pConfig.material.size g1
  let (opacity, g3) := getRandomOpacity pConfig.material.opacity g2
  ({ name := pConfig.name.getD "particleSystem"
     positions := ps
     velocities := vs
     colors := cols
     size := size
     textureType := pConfig.material.textureType
     blending := pConfig.material.blending
     depthWrite := pConfig.material.depthWrite
     opacity := opacity
     vertexColors := usesVertexColors pConfig.material.color
     materialColor := materialBaseColor pConfig.material.color
     behavior := pConfig.behavior }, g3)

/-- Parameters of the persistent UnrealBloomPass. -/
structure BloomPass where
  strength : ℝ
  radius : ℝ
  threshold : ℝ

/-- Mutable state of EffectManager. -/
structure EffectState where
  particleSystems : List LiveParticleSystem
  bloomPass : BloomPass

/-- EffectManager state right after the constructor:
`new UnrealBloomPass(resolution, 1.5, 0.4, 0.85)`. -/
def EffectManager.init : EffectState :=
  { particleSystems := [], bloomPass := ⟨1.5, 0.4, 0.85⟩ }

/-- clearParticleSystems: every live system is removed from the scene and
its geometry, texture and material disposed; the list becomes empty. -/
def clearParticleSystems (st : EffectState) : EffectState :=
  { st with particleSystems := [] }

/-- Body of the forEach in EffectManager.applyMood: build one live system
from the spec and push it. -/
def buildStep (acc : List LiveParticleSystem × RNG) (p : ParticleConfig) :
    List LiveParticleSystem × RNG :=
  let (sys, g2) := buildSystem p acc.2
  (acc.1 ++ [sys], g2)

/-- EffectManager.applyMood: clear all live systems, build one live system
per spec (unconditionally, whatever the count), then push the mood's bloom
parameters onto the persistent pass. -/
def EffectManager.applyMood (st : EffectState) (g : RNG) (config : MoodConfig) :
    EffectState × RNG :=
  let st1 := clearParticleSystems st
  let (systems, g1) := (particleSpecs config).foldl buildStep ([], g)
  ({ particleSystems := st1.particleSystems ++ systems
     bloomPass := ⟨config.bloom.strength, config.bloom.radius, config.bloom.threshold⟩ }, g1)

/-- One particle step of EffectManager.update: integrate the velocity at
the fixed scale factor 100, then run the two sequential wraparound checks
on the vertical component. -/
def stepParticle (deltaTime : ℝ) (behavior : ParticleBehavior) (p v : Vec3) : Vec3 :=
  let nx := p.x + v.x * deltaTime * 100
  let ny := p.y + v.y * deltaTime * 100
  let nz := p.z + v.z * deltaTime * 100
  let ny1 := if ny > behavior.spawnArea.y ∧ behavior.direction = .up then 0 else ny
  let ny2 := if ny1 < 0 ∧ behavior.direction = .down then behavior.spawnArea.y else ny1
  ⟨nx, ny2, nz⟩

/-- In-place update of one live system's position buffer. -/
def updateSystem (deltaTime : ℝ) (sys : LiveParticleSystem) : LiveParticleSystem :=
  { sys with positions :=
      List.zipWith (stepParticle deltaTime sys.behavior) sys.positions sys.velocities }

/-- EffectManager.update: advance every live particle system. -/
def EffectManager.update (st : EffectState) (deltaTime : ℝ) : EffectState :=
  { st with particleSystems := st.particleSystems.map (updateSystem deltaTime) }

/-! ### MoodManager (`src/managers/MoodManager.ts`) -/

/-- Exponential fog state (THREE.FogExp2). -/
structure FogState where
  color : Vec3
  density : ℝ

/-- Scene-global state touched by MoodManager: background color and fog,
both null on a fresh scene. -/
structure SceneState where
  background : Option Vec3
  fog : Option FogState

/-- State of the orchestrator and of the subsystems it drives.  (The
vegetation subsystem, LandscapeManager, is owned by a collaborator whose
applyMood call touches none of the state modelled here.) -/
structure OrchestratorState where
  currentMood : Option MoodConfig
  scene : SceneState
  lights : LightState
  effects : EffectState

/-- MoodManager.getCurrentMoodConfig. -/
def MoodManager.getCurrentMoodConfig (st : OrchestratorState) : Option MoodConfig :=
  st.currentMood

/-- MoodManager.applyMood: look up the configuration (warn and return
without any state change when the name is unknown), store it as the current
mood, set the scene background and exponential fog, then delegate to
LightManager.applyMood and EffectManager.applyMood in that order. -/
def MoodManager.applyMood (st : OrchestratorState) (g : RNG) (moodName : String) :
    OrchestratorState × RNG :=
  match lookupMood moodName with
  | none => (st, g)
  | some config =>
      let scene : SceneState :=
        { background := some (Color.ofStyle config.skyColor)
          fog := some ⟨Color.ofStyle config.fog.color, config.fog.density⟩ }
      let lights := LightManager.applyMood st.lights config
      let (effects, g1) := EffectManager.applyMood st.effects g config
      ({ currentMood := some config, scene := scene, lights := lights
         effects := effects }, g1)

/-- Initial orchestrator state: fresh scene, fresh managers, no active
mood. -/
def initialState : OrchestratorState :=
  { currentMood := none
    scene := { background := none, fog := none }
    lights := LightManager.init
    effects := EffectManager.init }

/-- A fixed random oracle for concrete witnesses. -/
def g0 : RNG := ⟨fun _ => 0, 0⟩

/-- The combined ambient-then-key-light pass of applyMood, applied to one
store entry. -/
def applyPersistent (c : MoodConfig) (p : String × LiveLight) : String × LiveLight :=
  let p1 := if p.1 = "ambient" then (p.1, ambientApply c p.2) else p
  if p1.1 = "keyLight" then (p1.1, keyLightApply c p1.2) else p1

/-- Demonstration pulse spec used by the C3 witness. -/
def pulseWitnessSpec : DynamicLightConfig :=
  { name := "pulse_demo", type := .point, color := .num 0xff0000
    intensity := .scalar 80, position := .vec ⟨0, 0, 0⟩
    animation := some
      { mode := .pulse, enabled := some true
        params :=
          { pulse := some
              { frequency := 1, intensityRange := (0.5, 1.5), phaseOffset := some 0 } } } }

/-- Demonstration spec with paired intensity and position, used by the C4
witness. -/
def pairWitnessSpec : DynamicLightConfig :=
  { name := "pair_demo", type := .point, color := .num 0xffffff
    intensity := .range 20 60, position := .pair ⟨1, 2, 3⟩ ⟨4, 5, 6⟩ }

/-- The parameter bag of the declared animation mode is absent (the static
mode has no bag and dispatches to no handler at all). -/
def bagMissing (a : LightAnimationConfig) : Prop :=
  match a.mode with
  | .strobe => a.params.strobe = none
  | .disco => a.params.disco = none
  | .explosion => a.params.explosion = none
  | .pulse => a.params.pulse = none
  | .flash => a.params.flash = none
  | .static => True

/-- Demonstration spec declaring a pulse mode with an empty parameter
record, used by the C8 witness. -/
def missingBagSpec : DynamicLightConfig :=
  { name := "broken_anim", type := .point, color := .num 0xffffff
    intensity := .scalar 50, position := .vec ⟨0, 0, 0⟩
    animation := some { mode := .pulse, enabled := some true, params := {} } }

/-- Specification-side particle step, following the claim's wording: the
position advances by velocity * deltaTime * 100, then the vertical
coordinate wraps to 0 for an up system above spawnArea[1] and to
spawnArea[1] for a down system below 0. -/
def stepParticleSpec (deltaTime : ℝ) (behavior : ParticleBehavior) (p v : Vec3) : Vec3 :=
  let q : Vec3 := ⟨p.x + v.x * deltaTime * 100, p.y + v.y * deltaTime * 100,
    p.z + v.z * deltaTime * 100⟩
  match behavior.direction with
  | .up => if q.y > behavior.spawnArea.y then ⟨q.x, 0, q.z⟩ else q
  | .down => if q.y < 0 then ⟨q.x, behavior.spawnArea.y, q.z⟩ else q

/-- Concrete one-particle up system used by the C6 witness. -/
def demoUpSystem : LiveParticleSystem :=
  { name := "demo", positions := [⟨0, 150, 0⟩], velocities := [⟨0, 1, 0⟩], colors := []
    size := 2, textureType := .sparkle, blending := .additive, depthWrite := false
    opacity := 1, vertexColors := false, materialColor := Color.ofHexNum 0xffffff
    behavior := ⟨⟨800, 200, 800⟩, ⟨0, 0.1, 0⟩, .up⟩ }

/-- Mood holding a single count-0 particle spec, the C7 counterexample
input. -/
def zeroCountMood : MoodConfig :=
  { name := "ZeroCount"
    skyColor := "#000000"
    fog := ⟨"#000000", 0.001⟩
    ambient := ⟨"#ffffff", 1⟩
    keyLight := ⟨"#ffffff", 1, ⟨0, 0, 0⟩⟩
    sun := ⟨false, "#ffffff"⟩
    groundColor := "#000000"
    vegetation := { treeColor := "#000000", cropColor := "#000000" }
    bloom := ⟨0.5, 0.5, 0.5⟩
    particles := some (.single
      { count := 0
        material :=
          { size := .scalar 1, textureType := .sparkle, blending := .additive
            depthWrite := false, opacity := .scalar 1, color := .str "#ffffff" }
        behavior := ⟨⟨100, 100, 100⟩, ⟨0, 1, 0⟩, .up⟩ })
    ui := ⟨"#ffffff", "#ffffff", "10"⟩ }

/-! ### Helper lemmas -/

/-- Clearing leaves no entry that counts as a dynamic light. -/
theorem filter_dyn_clear (m : List (String × LiveLight)) :
    (clearDynamicLights m).filter (fun p => !reservedKey p.1) = [] := by
  unfold clearDynamicLights
  rw [List.filter_filter]
  simp

/-- Lookup on a cons cell, with propositional key equality. -/
theorem storeGet_cons (k n : String) (v : LiveLight) (tl : List (String × LiveLight)) :
    storeGet ((k, v) :: tl) n = if n = k then some v else storeGet tl n := by
  by_cases h : n = k
  · simp [storeGet, List.lookup, h]
  · have hb : (n == k) = false := beq_eq_false_iff_ne.mpr h
    simp [storeGet, List.lookup, hb, h]

/-- Assignment under a different key does not change a lookup. -/
theorem storeGet_storeSet_ne (m : List (String × LiveLight)) (k n : String)
    (v : LiveLight) (h : n ≠ k) :
    storeGet (storeSet m k v) n = storeGet m n := by
  induction m with
  | nil =>
      show storeGet [(k, v)] n = storeGet [] n
      rw [storeGet_cons, if_neg h]
  | cons hd tl ih =>
      obtain ⟨k1, v1⟩ := hd
      by_cases hk : k1 = k
      · subst hk
        have hset : storeSet ((k1, v1) :: tl) k1 v = (k1, v) :: tl := by
          simp [storeSet]
        rw [hset, storeGet_cons, storeGet_cons, if_neg h, if_neg h]
      · have hset : storeSet ((k1, v1) :: tl) k v = (k1, v1) :: storeSet tl k v := by
          simp [storeSet, hk]
        rw [hset, storeGet_cons, storeGet_cons, ih]

/-- One update step leaves the stored light at a key untouched when every
spec carrying that name has no enabled animation. -/
theorem updateStep_preserves (t : ℝ) (acc : LightState × RNG)
    (spec : DynamicLightConfig) (name : String)
    (h : spec.name = name → animEnabled spec = false) :
    storeGet (LightManager.updateStep t acc spec).1.lights name =
      storeGet acc.1.lights name := by
  unfold LightManager.updateStep
  cases hget : storeGet acc.1.lights spec.name
  · rfl
  · rename_i light
    by_cases he : animEnabled spec = true
    · have hne : spec.name ≠ name := fun hn => by simp [h hn] at he
      simp only [he, if_true]
      exact storeGet_storeSet_ne _ _ _ _ (Ne.symm hne)
    · simp [he]

/-- The update loop leaves the stored light at a key untouched when every
spec carrying that name has no enabled animation. -/
theorem foldl_updateStep_preserves (t : ℝ) (name : String) :
    ∀ specs : List DynamicLightConfig,
      (∀ spec ∈ specs, spec.name = name → animEnabled spec = false) →
      ∀ acc : LightState × RNG,
        storeGet (specs.foldl (LightManager.updateStep t) acc).1.lights name =
          storeGet acc.1.lights name := by
  intro specs
  induction specs with
  | nil => intro _ acc; rfl
  | cons s rest ih =>
      intro h acc
      rw [List.foldl_cons,
        ih (fun spec hs => h spec (List.mem_cons_of_mem _ hs)) _,
        updateStep_preserves t acc s name (h s (List.mem_cons_self _ _))]

/-- Setting the same style twice equals setting it once. -/
theorem setStyle_idem (x : Vec3) (s : String) :
    Color.setStyle (Color.setStyle x s) s = Color.setStyle x s := by
  unfold Color.setStyle
  by_cases h : isHex6Style s = true <;> simp [h]

/-- The ambient mutation of applyMood is idempotent. -/
theorem ambientApply_idem (c : MoodConfig) (l : LiveLight) :
    ambientApply c (ambientApply c l) = ambientApply c l := by
  simp [ambientApply, setStyle_idem]

/-- The key-light mutation of applyMood is idempotent. -/
theorem keyLightApply_idem (c : MoodConfig) (l : LiveLight) :
    keyLightApply c (keyLightApply c l) = keyLightApply c l := by
  simp [keyLightApply, setStyle_idem]

/-- The sun-mesh mutation of applyMood is idempotent. -/
theorem sunApply_idem (c : MoodConfig) (m : SunMesh) :
    sunApply c (sunApply c m) = sunApply c m := by
  simp [sunApply, setStyle_idem]

/-- Modifying an entry keeps its key. -/
theorem storeModify_entry_key (k : String) (f : LiveLight → LiveLight)
    (p : String × LiveLight) :
    ((if p.1 = k then (p.1, f p.2) else p) : String × LiveLight).1 = p.1 := by
  split_ifs <;> rfl

/-- Clearing commutes with in-place modification (modification preserves
keys). -/
theorem clear_storeModify (m : List (String × LiveLight)) (k : String)
    (f : LiveLight → LiveLight) :
    clearDynamicLights (storeModify m k f) = storeModify (clearDynamicLights m) k f := by
  unfold clearDynamicLights storeModify
  rw [List.filter_map]
  congr 1
  apply List.filter_congr
  intro p _
  simp only [Function.comp_apply, storeModify_entry_key]

/-- Clearing twice equals clearing once. -/
theorem clear_idem (m : List (String × LiveLight)) :
    clearDynamicLights (clearDynamicLights m) = clearDynamicLights m := by
  unfold clearDynamicLights
  rw [List.filter_filter]
  simp


/-- The two storeModify passes of applyMood form one map. -/
theorem storeModify_ambient_key (c : MoodConfig) (m : List (String × LiveLight)) :
    storeModify (storeModify m "ambient" (ambientApply c)) "keyLight" (keyLightApply c) =
      m.map (applyPersistent c) := by
  unfold storeModify
  rw [List.map_map]
  rfl

/-- The combined persistent pass is idempotent on every entry. -/
theorem applyPersistent_idem (c : MoodConfig) (p : String × LiveLight) :
    applyPersistent c (applyPersistent c p) = applyPersistent c p := by
  obtain ⟨k, v⟩ := p
  by_cases ha : k = "ambient"
  · subst ha
    simp [applyPersistent, ambientApply_idem]
  · by_cases hk : k = "keyLight"
    · subst hk
      simp [applyPersistent, keyLightApply_idem]
    · simp [applyPersistent, ha, hk]

/-- The persistent pass preserves keys. -/
theorem applyPersistent_key (c : MoodConfig) (p : String × LiveLight) :
    (applyPersistent c p).1 = p.1 := by
  obtain ⟨k, v⟩ := p
  by_cases ha : k = "ambient"
  · subst ha; simp [applyPersistent]
  · by_cases hk : k = "keyLight" <;> simp [applyPersistent, ha, hk]

/-- Clearing commutes with the persistent pass. -/
theorem clear_map_applyPersistent (c : MoodConfig) (m : List (String × LiveLight)) :
    clearDynamicLights (m.map (applyPersistent c)) =
      (clearDynamicLights m).map (applyPersistent c) := by
  unfold clearDynamicLights
  rw [List.filter_map]
  congr 1
  apply List.filter_congr
  intro p _
  simp only [Function.comp_apply, applyPersistent_key]

/-- Assignment appends when the key is absent from a prefix. -/
theorem storeSet_append_absent (m l : List (String × LiveLight)) (k : String)
    (v : LiveLight) (h : storeGet m k = none) :
    storeSet (m ++ l) k v = m ++ storeSet l k v := by
  induction m with
  | nil => rfl
  | cons hd tl ih =>
      obtain ⟨k1, v1⟩ := hd
      rw [storeGet_cons] at h
      by_cases hk : k = k1
      · rw [if_pos hk] at h
        cases h
      · rw [if_neg hk] at h
        have hk1 : ¬k1 = k := fun hEq => hk hEq.symm
        show (if k1 = k then (k, v) :: (tl ++ l)
            else (k1, v1) :: storeSet (tl ++ l) k v) =
          (k1, v1) :: (tl ++ storeSet l k v)
        rw [if_neg hk1, ih h]

/-- Creating into a store whose prefix misses every spec name only touches
the suffix. -/
theorem createDynamicLights_append (specs : List DynamicLightConfig)
    (m : List (String × LiveLight))
    (h : ∀ s ∈ specs, storeGet m s.name = none) :
    ∀ l, createDynamicLights (m ++ l) specs = m ++ createDynamicLights l specs := by
  induction specs with
  | nil => intro l; rfl
  | cons s rest ih =>
      intro l
      show createDynamicLights (storeSet (m ++ l) s.name (createLight s)) rest =
        m ++ createDynamicLights (storeSet l s.name (createLight s)) rest
      rw [storeSet_append_absent m l s.name _ (h s (List.mem_cons_self _ _))]
      exact ih (fun x hx => h x (List.mem_cons_of_mem _ hx)) _

/-- With pairwise-distinct names, creation from an empty store is exactly
one entry per spec, in order. -/
theorem createDynamicLights_nil_eq_map (specs : List DynamicLightConfig)
    (hnd : (specs.map (fun s => s.name)).Nodup) :
    createDynamicLights [] specs = specs.map (fun s => (s.name, createLight s)) := by
  induction specs with
  | nil => rfl
  | cons s rest ih =>
      have hnotmem : s.name ∉ rest.map (fun x => x.name) := (List.nodup_cons.mp hnd).1
      have hrest := (List.nodup_cons.mp hnd).2
      have habs : ∀ x ∈ rest, storeGet [(s.name, createLight s)] x.name = none := by
        intro x hx
        rw [storeGet_cons, if_neg]
        · rfl
        · intro hEq
          exact hnotmem (by rw [← hEq]; exact List.mem_map_of_mem _ hx)
      show createDynamicLights ([(s.name, createLight s)] ++ []) rest = _
      rw [createDynamicLights_append rest _ habs [], ih hrest]
      rfl

/-- A non-reserved key is never found in a cleared store. -/
theorem storeGet_clear_nonreserved (m : List (String × LiveLight)) (k : String)
    (h : reservedKey k = false) :
    storeGet (clearDynamicLights m) k = none := by
  induction m with
  | nil => rfl
  | cons hd tl ih =>
      obtain ⟨k1, v1⟩ := hd
      by_cases hr : reservedKey k1 = true
      · have hne : k ≠ k1 := fun hEq => by rw [hEq, hr] at h; cases h
        show storeGet (List.filter _ ((k1, v1) :: tl)) k = none
        rw [List.filter_cons, if_pos (by simpa using hr), storeGet_cons, if_neg hne]
        exact ih
      · show storeGet (List.filter _ ((k1, v1) :: tl)) k = none
        rw [List.filter_cons, if_neg (by simpa using hr)]
        exact ih

/-- Clearing a store whose keys are all non-reserved deletes everything. -/
theorem clear_nonreserved_eq_nil (m : List (String × LiveLight))
    (h : ∀ p ∈ m, reservedKey p.1 = false) :
    clearDynamicLights m = [] := by
  unfold clearDynamicLights
  rw [List.filter_eq_nil_iff]
  intro p hp
  simp [h p hp]

/-- Filtering for dynamic entries keeps a store whose keys are all
non-reserved. -/
theorem filter_dyn_nonreserved (m : List (String × LiveLight))
    (h : ∀ p ∈ m, reservedKey p.1 = false) :
    m.filter (fun p => !reservedKey p.1) = m := by
  rw [List.filter_eq_self]
  intro p hp
  simp [h p hp]

/-- Clearing distributes over append. -/
theorem clear_append (a b : List (String × LiveLight)) :
    clearDynamicLights (a ++ b) = clearDynamicLights a ++ clearDynamicLights b :=
  List.filter_append a b

/-! ### Claim theorems -/

/-- C1: for every mood name not present in the catalog,
MoodManager.applyMood is a no-op: it returns without touching the current
mood, the scene background and fog, the light state or the effect state
(only a warning is logged, which is outside the modelled state), and it
consumes no randomness. -/
theorem applyMood_unknown_name_noop (st : OrchestratorState) (g : RNG) (name : String)
    (h : lookupMood name = none) :
    MoodManager.applyMood st g name = (st, g) ∧
    MoodManager.getCurrentMoodConfig (MoodManager.applyMood st g name).1 =
      MoodManager.getCurrentMoodConfig st := by
  refine ⟨?_, ?_⟩ <;> simp only [MoodManager.applyMood, h]

/-- Witness for C1: the name Nonexistent is not in the catalog and applying
it to the initial state changes nothing. -/
theorem applyMood_unknown_name_noop_witness :
    lookupMood "Nonexistent" = none ∧
    MoodManager.applyMood initialState g0 "Nonexistent" = (initialState, g0) :=
  ⟨rfl, (applyMood_unknown_name_noop initialState g0 "Nonexistent" rfl).1⟩

/-- C9: the catalog contains the mood Harmonisch with bloom threshold 0.85,
strength 0.8, radius 0.5, no dynamicLights entry and fog density 0.001;
applying it from any state leaves exactly 0 live dynamic lights, the
persistent bloom pass reads back those three values, and the scene fog
density equals the catalog value. -/
theorem applyMood_harmonisch_scenario :
    lookupMood "Harmonisch" = some harmonisch ∧
    harmonisch.bloom.threshold = 0.85 ∧ harmonisch.bloom.strength = 0.8 ∧
    harmonisch.bloom.radius = 0.5 ∧ harmonisch.dynamicLights = none ∧
    harmonisch.fog.density = 0.001 ∧
    ∀ (st : OrchestratorState) (g : RNG),
      (MoodManager.applyMood st g "Harmonisch").1.lights.dynamicLightCount = 0 ∧
      (MoodManager.applyMood st g "Harmonisch").1.effects.bloomPass.threshold = 0.85 ∧
      (MoodManager.applyMood st g "Harmonisch").1.effects.bloomPass.strength = 0.8 ∧
      (MoodManager.applyMood st g "Harmonisch").1.effects.bloomPass.radius = 0.5 ∧
      (MoodManager.applyMood st g "Harmonisch").1.scene.fog =
        some ⟨Color.ofStyle "#87CEEB", 0.001⟩ := by
  refine ⟨rfl, rfl, rfl, rfl, rfl, rfl, fun st g => ⟨?_, rfl, rfl, rfl, rfl⟩⟩
  show ((createDynamicLights (clearDynamicLights _) (dynSpecs harmonisch)).filter _).length = 0
  have : dynSpecs harmonisch = [] := rfl
  rw [this]
  show ((clearDynamicLights _).filter _).length = 0
  rw [filter_dyn_clear]
  rfl

/-- C3: a pulse light's intensity follows the deterministic formula
baseIntensity * (lo + ((sin(2pi(t.f + phi)) + 1) / 2) * (hi - lo)), where
baseIntensity is the first element of the spec intensity and phi defaults
to 0; with frequency 1, range [0.5, 1.5] and phase offset 0 the intensity
at a quarter period is baseIntensity * 1.5 and at three quarters it is
baseIntensity * 0.5 (the real-number model makes these equalities exact). -/
theorem updatePulseLight_formula (light : LiveLight) (config : DynamicLightConfig)
    (p : PulseParams) (t : ℝ) :
    (updatePulseLight light config (some p) t).intensity =
      config.intensity.base *
        (p.intensityRange.1 +
          (Real.sin (2 * Real.pi * (t * p.frequency + jsOrDefault p.phaseOffset 0)) + 1) / 2 *
            (p.intensityRange.2 - p.intensityRange.1)) ∧
    (p.frequency = 1 → p.intensityRange = (0.5, 1.5) → p.phaseOffset = some 0 →
      (updatePulseLight light config (some p) 0.25).intensity =
          config.intensity.base * 1.5 ∧
        (updatePulseLight light config (some p) 0.75).intensity =
          config.intensity.base * 0.5) := by
  constructor
  · simp only [updatePulseLight]
    ring_nf
  · intro hf hr hp
    have h0 : jsOrDefault p.phaseOffset 0 = 0 := by rw [hp]; simp [jsOrDefault]
    constructor
    · simp only [updatePulseLight, hf, hr, h0]
      have harg : ((0.25 : ℝ) * 1 + 0) * Real.pi * 2 = Real.pi / 2 := by ring
      rw [harg, Real.sin_pi_div_two]
      norm_num
    · simp only [updatePulseLight, hf, hr, h0]
      have harg : ((0.75 : ℝ) * 1 + 0) * Real.pi * 2 = Real.pi + Real.pi / 2 := by ring
      rw [harg, Real.sin_add, Real.sin_pi, Real.cos_pi, Real.sin_pi_div_two,
        Real.cos_pi_div_two]
      norm_num


/-- Witness for C3: the demonstration pulse light peaks at 80 * 1.5 at a
quarter period and bottoms out at 80 * 0.5 at three quarters. -/
theorem updatePulseLight_formula_witness :
    (updatePulseLight (createLight pulseWitnessSpec) pulseWitnessSpec
        (some { frequency := 1, intensityRange := (0.5, 1.5), phaseOffset := some 0 })
        0.25).intensity = 80 * 1.5 ∧
    (updatePulseLight (createLight pulseWitnessSpec) pulseWitnessSpec
        (some { frequency := 1, intensityRange := (0.5, 1.5), phaseOffset := some 0 })
        0.75).intensity = 80 * 0.5 :=
  (updatePulseLight_formula (createLight pulseWitnessSpec) pulseWitnessSpec
    { frequency := 1, intensityRange := (0.5, 1.5), phaseOffset := some 0 } 0).2
    rfl rfl rfl

/-- C4: a spec whose intensity is a [min, max] pair or whose position is a
[vecA, vecB] pair creates a live light whose initial intensity is the first
element and whose initial position is the first vector; creation draws no
random number (createLight takes no random oracle). -/
theorem createLight_pair_deterministic (c : DynamicLightConfig) (lo hi : ℝ) (a b : Vec3)
    (hint : c.intensity = .range lo hi) (hpos : c.position = .pair a b) :
    (createLight c).intensity = lo ∧ (createLight c).position = a := by
  cases htype : c.type <;>
    simp [createLight, htype, hint, hpos, NumOrRange.base, LightPosition.base]


/-- Witness for C4: the demonstration spec creates a light with intensity
20 and position (1, 2, 3). -/
theorem createLight_pair_deterministic_witness :
    (createLight pairWitnessSpec).intensity = 20 ∧
    (createLight pairWitnessSpec).position = ⟨1, 2, 3⟩ :=
  createLight_pair_deterministic pairWitnessSpec 20 60 ⟨1, 2, 3⟩ ⟨4, 5, 6⟩ rfl rfl


/-- C8: a light whose declared animation mode has no parameter bag is
skipped for the frame without any effect: the light and the random oracle
come back unchanged.  Every dispatch path of updateAnimatedLight is a total
function (the runtime-erased non-null assertions are guarded by the
handlers' own bag checks), so no update path can throw. -/
theorem updateAnimatedLight_missing_bag_skips (light : LiveLight)
    (config : DynamicLightConfig) (t : ℝ) (g : RNG) (a : LightAnimationConfig)
    (ha : config.animation = some a) (hm : bagMissing a) :
    updateAnimatedLight light config t g = (light, g) := by
  unfold updateAnimatedLight
  rw [ha]
  dsimp only
  cases hmod : a.mode <;> simp only [bagMissing, hmod] at hm
  case static => rfl
  case strobe => rw [hm]; rfl
  case disco => rw [hm]; rfl
  case explosion => rw [hm]; rfl
  case pulse => rw [hm]; rfl
  case flash => rw [hm]; rfl


/-- Witness for C8: the demonstration light with a missing pulse bag is
returned unchanged together with the oracle. -/
theorem updateAnimatedLight_missing_bag_skips_witness :
    updateAnimatedLight (createLight missingBagSpec) missingBagSpec 1 g0 =
      (createLight missingBagSpec, g0) :=
  updateAnimatedLight_missing_bag_skips (createLight missingBagSpec) missingBagSpec 1 g0
    { mode := .pulse, enabled := some true, params := {} } rfl rfl


/-- The two sequential wrap checks of the source equal the claim's single
direction-dispatched wrap: the two conditions are mutually exclusive
because they test opposite directions. -/
theorem stepParticle_eq_spec (dt : ℝ) (b : ParticleBehavior) (p v : Vec3) :
    stepParticle dt b p v = stepParticleSpec dt b p v := by
  unfold stepParticle stepParticleSpec
  cases hd : b.direction
  · by_cases hy : p.y + v.y * dt * 100 > b.spawnArea.y <;> simp [hy]
  · by_cases hy : p.y + v.y * dt * 100 < 0 <;> simp [hy]

/-- Buffer lengths produced by the particle creation loop both equal the
requested count. -/
theorem buildParticles_length (material : ParticleMaterialConfig)
    (behavior : ParticleBehavior) (n : ℕ) (g : RNG) :
    (buildParticles material behavior n g).1.length = n ∧
    (buildParticles material behavior n g).2.1.length = n := by
  induction n generalizing g with
  | zero => exact ⟨rfl, rfl⟩
  | succ k ih =>
      unfold buildParticles
      cases material.color with
      | str s =>
          by_cases hs : s = "rainbow" <;>
            simp only [hs, if_true, if_false, reduceIte] <;>
            simpa using ih _
      | arr cs => simpa using ih _

/-- Every system pushed by the applyMood loop has equal-length position and
velocity buffers (each of length count). -/
theorem foldl_buildStep_invariant (specs : List ParticleConfig)
    (acc : List LiveParticleSystem × RNG)
    (hacc : ∀ sys ∈ acc.1, sys.positions.length = sys.velocities.length) :
    ∀ sys ∈ (specs.foldl buildStep acc).1,
      sys.positions.length = sys.velocities.length := by
  induction specs generalizing acc with
  | nil => exact hacc
  | cons p rest ih =>
      refine ih _ ?_
      intro sys hsys
      simp only [buildStep, buildSystem, List.mem_append, List.mem_singleton] at hsys
      rcases hsys with h | h
      · exact hacc sys h
      · subst h
        have hb := buildParticles_length p.material p.behavior p.count acc.2
        simpa using hb.1.trans hb.2.symm

/-- C6: particle motion and recycling.  Systems created by applyMood have
position and velocity buffers of equal length; update advances every
particle by velocity * deltaTime * 100 and wraps an up particle above
spawnArea[1] back to height 0 (a down particle below 0 back to
spawnArea[1]); no particle is added or removed and no random draw occurs
(updateSystem takes no oracle), so the particle count never changes. -/
theorem effect_update_particle_recycling :
    (∀ (st : EffectState) (g : RNG) (c : MoodConfig),
      ∀ sys ∈ (EffectManager.applyMood st g c).1.particleSystems,
        sys.positions.length = sys.velocities.length) ∧
    (∀ (dt : ℝ) (sys : LiveParticleSystem),
      (updateSystem dt sys).positions =
        List.zipWith (stepParticleSpec dt sys.behavior) sys.positions sys.velocities) ∧
    (∀ (dt : ℝ) (sys : LiveParticleSystem),
      sys.positions.length = sys.velocities.length →
      (updateSystem dt sys).positions.length = sys.positions.length) ∧
    (∀ (st : EffectState) (dt : ℝ),
      (EffectManager.update st dt).particleSystems.length =
        st.particleSystems.length) := by
  refine ⟨?_, ?_, ?_, ?_⟩
  · intro st g c sys hsys
    simp only [EffectManager.applyMood] at hsys
    have := foldl_buildStep_invariant (particleSpecs c) ([], g) (by simp)
    simp only [clearParticleSystems, List.nil_append] at hsys
    exact this sys hsys
  · intro dt sys
    have hfun : stepParticle dt sys.behavior = stepParticleSpec dt sys.behavior := by
      funext p v
      exact stepParticle_eq_spec dt sys.behavior p v
    simp [updateSystem, hfun]
  · intro dt sys h
    simp [updateSystem, h]
  · intro st dt
    simp [EffectManager.update]


/-- Witness for C6: the demonstration system has equal buffer lengths and
update preserves its particle count. -/
theorem effect_update_particle_recycling_witness :
    (updateSystem 1 demoUpSystem).positions.length = demoUpSystem.positions.length :=
  effect_update_particle_recycling.2.2.1 1 demoUpSystem rfl

/-- C10: only the vertical coordinate wraps.  The x and z components of
every particle always integrate velocity * deltaTime * 100 with no reset or
bound, the y component follows the direction-dispatched wrap rule, and the
velocity buffers (fixed at creation) are never modified by update. -/
theorem effect_update_wraps_only_y (dt : ℝ) (sys : LiveParticleSystem) :
    (updateSystem dt sys).positions.map Vec3.x =
      List.zipWith (fun (p v : Vec3) => p.x + v.x * dt * 100)
        sys.positions sys.velocities ∧
    (updateSystem dt sys).positions.map Vec3.z =
      List.zipWith (fun (p v : Vec3) => p.z + v.z * dt * 100)
        sys.positions sys.velocities ∧
    (updateSystem dt sys).positions.map Vec3.y =
      List.zipWith (fun (p v : Vec3) =>
        let ny := p.y + v.y * dt * 100
        match sys.behavior.direction with
        | .up => if ny > sys.behavior.spawnArea.y then 0 else ny
        | .down => if ny < 0 then sys.behavior.spawnArea.y else ny)
        sys.positions sys.velocities ∧
    (updateSystem dt sys).velocities = sys.velocities ∧
    ∀ st : EffectState,
      (EffectManager.update st dt).particleSystems.map (fun s => s.velocities) =
        st.particleSystems.map (fun s => s.velocities) := by
  refine ⟨?_, ?_, ?_, rfl, ?_⟩
  · simp only [updateSystem, List.map_zipWith]
    rfl
  · simp only [updateSystem, List.map_zipWith]
    rfl
  · simp only [updateSystem, List.map_zipWith]
    have hfun : (fun (p v : Vec3) => (stepParticle dt sys.behavior p v).y) =
        (fun (p v : Vec3) =>
          let ny := p.y + v.y * dt * 100
          match sys.behavior.direction with
          | .up => if ny > sys.behavior.spawnArea.y then 0 else ny
          | .down => if ny < 0 then sys.behavior.spawnArea.y else ny) := by
      funext p v
      rw [stepParticle_eq_spec]
      unfold stepParticleSpec
      cases hd : sys.behavior.direction
      · by_cases hy : p.y + v.y * dt * 100 > sys.behavior.spawnArea.y <;> simp [hy]
      · by_cases hy : p.y + v.y * dt * 100 < 0 <;> simp [hy]
    rw [hfun]
  · intro st
    simp only [EffectManager.update, List.map_map]
    rfl

/-- Buffer-size bookkeeping of the applyMood build loop: one system per
spec, in order, with both buffers of length count. -/
theorem foldl_buildStep_lengths (specs : List ParticleConfig)
    (acc : List LiveParticleSystem × RNG) :
    ((specs.foldl buildStep acc).1.map
        (fun sys => (sys.positions.length, sys.velocities.length))) =
      acc.1.map (fun sys => (sys.positions.length, sys.velocities.length)) ++
        specs.map (fun p => (p.count, p.count)) := by
  induction specs generalizing acc with
  | nil => simp
  | cons p rest ih =>
      rw [List.foldl_cons, ih]
      have h := buildParticles_length p.material p.behavior p.count acc.2
      simp [buildStep, buildSystem, h.1, h.2]


/-- Counterexample for C7: a count-0 spec is not skipped.  Applying the
mood above to a fresh EffectManager leaves one live (empty) particle
system, while the claim predicts that no live system is added; no log and
no guard exist in EffectManager.applyMood. -/
theorem zero_count_spec_not_skipped :
    (EffectManager.applyMood EffectManager.init g0 zeroCountMood).1.particleSystems.length
      = 1 ∧ (1 : ℕ) ≠ 0 :=
  ⟨rfl, by decide⟩

/-- C7 amended: applyMood skips no spec: it yields exactly one live system
per spec, whatever the count (a count-0 spec yields a live system with
empty buffers, without crashing), and each system's position and velocity
buffers hold exactly count three-component entries — no silent
truncation. -/
theorem applyMood_buffer_sizes (st : EffectState) (g : RNG) (c : MoodConfig) :
    ((EffectManager.applyMood st g c).1.particleSystems.map
        (fun sys => (sys.positions.length, sys.velocities.length))) =
      (particleSpecs c).map (fun p => (p.count, p.count)) := by
  simp only [EffectManager.applyMood, clearParticleSystems, List.nil_append]
  rw [foldl_buildStep_lengths]
  simp

/-- C5: a live dynamic light whose spec declares no animation, or whose
animation is not enabled, is never changed by LightManager.update: across
any number of frames (any elapsed times, any random draws) the stored light
— intensity, position, color, target and all — stays exactly as created. -/
theorem update_never_touches_disabled_lights (config : MoodConfig) (name : String)
    (h : ∀ spec ∈ dynSpecs config, spec.name = name → animEnabled spec = false) :
    ∀ (st : LightState) (g : RNG) (times : List ℝ),
      storeGet (LightManager.updateFrames st g times config).1.lights name =
        storeGet st.lights name := by
  have hstep : ∀ (st : LightState) (g : RNG) (t : ℝ),
      storeGet (LightManager.update st g t config).1.lights name =
        storeGet st.lights name := by
    intro st g t
    unfold LightManager.update
    cases hd : config.dynamicLights
    · rfl
    · rename_i specs
      have hspecs : ∀ spec ∈ specs, spec.name = name → animEnabled spec = false := by
        intro spec hs
        refine h spec ?_
        simp [dynSpecs, hd, hs]
      exact foldl_updateStep_preserves t name specs hspecs (st, g)
  intro st g times
  induction times generalizing st g with
  | nil => rfl
  | cons t rest ih =>
      unfold LightManager.updateFrames at ih ⊢
      rw [List.foldl_cons]
      exact (ih (LightManager.update st g t config).1
        (LightManager.update st g t config).2).trans (hstep st g t)

/-- Witness for C5: the only dynamic light of the Spannung mood,
dynamic_strobe, declares no animation; three frames of update leave its
stored light exactly as applyMood created it. -/
theorem update_never_touches_disabled_lights_witness :
    storeGet (LightManager.updateFrames (LightManager.applyMood LightManager.init spannung)
        g0 [0.1, 0.2, 0.3] spannung).1.lights "dynamic_strobe" =
      storeGet (LightManager.applyMood LightManager.init spannung).lights
        "dynamic_strobe" :=
  update_never_touches_disabled_lights spannung "dynamic_strobe" (by decide) _ g0 _

/-- C2: after any sequence of applyMood calls the live state is that of the
last mood alone.  For a config whose dynamic-light names are pairwise
distinct and avoid the two persistent storage keys: (1) the number of live
dynamic lights after LightManager.applyMood equals the number of entries of
the config's dynamicLights list (zero when absent), whatever the previous
state; (2) LightManager.applyMood is idempotent, so a repeated application
changes no light parameter; (3) the number of live particle systems after
EffectManager.applyMood equals the number of the config's particle specs,
whatever the previous state; (4) EffectManager.applyMood does not read the
previous effect state at all, so a re-application from the same oracle
position yields the same counts and the same parameter values as a single
application. -/
theorem applyMood_counts_idempotent (c : MoodConfig)
    (hres : ∀ s ∈ dynSpecs c, reservedKey s.name = false)
    (hnd : ((dynSpecs c).map (fun s => s.name)).Nodup) :
    (∀ st : LightState,
      (LightManager.applyMood st c).dynamicLightCount = (dynSpecs c).length) ∧
    (∀ st : LightState,
      LightManager.applyMood (LightManager.applyMood st c) c =
        LightManager.applyMood st c) ∧
    (∀ (st : EffectState) (g : RNG),
      (EffectManager.applyMood st g c).1.particleSystems.length =
        (particleSpecs c).length) ∧
    (∀ (st st' : EffectState) (g : RNG),
      EffectManager.applyMood st g c = EffectManager.applyMood st' g c) := by
  have hDkeys : ∀ p ∈ (dynSpecs c).map (fun s => (s.name, createLight s)),
      reservedKey p.1 = false := by
    intro p hp
    obtain ⟨s, hs, rfl⟩ := List.mem_map.mp hp
    exact hres s hs
  have hcreate : ∀ m : List (String × LiveLight),
      (∀ s ∈ dynSpecs c, storeGet m s.name = none) →
      createDynamicLights m (dynSpecs c) =
        m ++ (dynSpecs c).map (fun s => (s.name, createLight s)) := by
    intro m hm
    have h1 := createDynamicLights_append (dynSpecs c) m hm []
    rw [List.append_nil] at h1
    rw [h1, createDynamicLights_nil_eq_map (dynSpecs c) hnd]
  have hlights : ∀ st : LightState, (LightManager.applyMood st c).lights =
      clearDynamicLights (st.lights.map (applyPersistent c)) ++
        (dynSpecs c).map (fun s => (s.name, createLight s)) := by
    intro st
    show createDynamicLights (clearDynamicLights (storeModify
      (storeModify st.lights "ambient" (ambientApply c)) "keyLight"
      (keyLightApply c))) (dynSpecs c) = _
    rw [storeModify_ambient_key]
    exact hcreate _ (fun s hs => storeGet_clear_nonreserved _ _ (hres s hs))
  refine ⟨?_, ?_, ?_, ?_⟩
  · intro st
    show ((LightManager.applyMood st c).lights.filter
      (fun p => !reservedKey p.1)).length = _
    rw [hlights st, List.filter_append, filter_dyn_clear, List.nil_append,
      filter_dyn_nonreserved _ hDkeys, List.length_map]
  · intro st
    have hmkeq : ∀ a b : LightState, a.lights = b.lights → a.sunMesh = b.sunMesh →
        a = b := by
      intro a b h1 h2
      cases a; cases b; cases h1; cases h2; rfl
    apply hmkeq
    · rw [hlights (LightManager.applyMood st c), hlights st]
      congr 1
      rw [List.map_append, clear_append]
      have hnil : clearDynamicLights (((dynSpecs c).map
          (fun s => (s.name, createLight s))).map (applyPersistent c)) = [] := by
        apply clear_nonreserved_eq_nil
        intro p hp
        obtain ⟨q, hq, rfl⟩ := List.mem_map.mp hp
        rw [applyPersistent_key]
        exact hDkeys q hq
      rw [hnil, List.append_nil, clear_map_applyPersistent, clear_idem,
        ← clear_map_applyPersistent, List.map_map]
      have hphi : applyPersistent c ∘ applyPersistent c = applyPersistent c :=
        funext (applyPersistent_idem c)
      rw [hphi]
    · show ((st.sunMesh.map (sunApply c)).map (sunApply c)) = st.sunMesh.map (sunApply c)
      rw [Option.map_map]
      have hphi : sunApply c ∘ sunApply c = sunApply c := funext (sunApply_idem c)
      rw [hphi]
  · intro st g
    show (([] : List LiveParticleSystem) ++
      ((particleSpecs c).foldl buildStep ([], g)).1).length = _
    rw [List.nil_append]
    have h := congrArg List.length (foldl_buildStep_lengths (particleSpecs c) ([], g))
    simpa using h
  · intro st st' g
    rfl

/-- Witness for C2: applying the Krieg mood (3 dynamic lights, 3 particle
specs) to freshly constructed managers yields exactly 3 live dynamic lights
and 3 live particle systems. -/
theorem applyMood_counts_idempotent_witness :
    (LightManager.applyMood LightManager.init krieg).dynamicLightCount = 3 ∧
    (EffectManager.applyMood EffectManager.init g0 krieg).1.particleSystems.length = 3 := by
  have h := applyMood_counts_idempotent krieg (by decide) (by decide)
  exact ⟨(h.1 LightManager.init).trans rfl, (h.2.2.1 EffectManager.init g0).trans rfl⟩

end

end Agroforst
